import Mathlib

/-!
Verification of the News-Aggregator core pipeline against its specification.

This file shallowly embeds the parts of the code base that the checked
properties talk about:

* `shared/retry/error_classifier.py` — error classification
  (pattern matching, retryability table, suggested backoff delays);
* `shared/types.py` — `RawNewsItem` construction and identity;
* `shared/retry/retry_queue.py` — retry-queue items and the queue
  (expiry, retry eligibility, in-place update on re-add,
  dict serialization round trips);
* `shared/collectors/rss_collector.py` — deduplication by canonical URL
  and by normalized-title fingerprint;
* `shared/ai/multi_summarizer.py` — provider health records, rate-limit
  cooldowns, provider selection, and daily trend analysis fallback;
* `shared/retry/retry_storage.py` — loading the persisted queue file.

Conventions: Python `datetime` values are modelled as integers (an absolute
time line, e.g. epoch seconds); `datetime.now()` becomes an explicit `now`
parameter.  Python exceptions become `Except` results.  Randomness
(`uuid.uuid4()`) is modelled as an explicitly supplied fresh value.
-/

namespace NewsAggregator

/-- Python exception values that the embedded code can raise. -/
inductive PyErr where
  /-- Embeds `TypeError`, e.g. comparing a `datetime` with a `float`. -/
  | typeError : PyErr
  /-- Embeds `KeyError` raised by `data['k']` when key `k` is missing. -/
  | keyError (key : String) : PyErr
  deriving DecidableEq, Repr

/-- Python's substring containment `needle in haystack`, on character lists. -/
def charSubstrIn (needle haystack : List Char) : Bool :=
  haystack.tails.any (fun suf => needle.isPrefixOf suf)

/-- Python's `needle in haystack` for strings. -/
def substrIn (needle haystack : String) : Bool :=
  charSubstrIn needle.data haystack.data

/-- Python's `str.lower()` (character-wise lowercasing; kernel-reducible
counterpart of `String.toLower`). -/
def pyLower (s : String) : String :=
  ⟨s.data.map Char.toLower⟩

/-! ## Error classifier (`shared/retry/error_classifier.py`) -/

/-- The `ErrorType` enumeration of `error_classifier.py`. -/
inductive ErrorType where
  | rate_limit
  | quota_exceeded
  | network_error
  | service_error
  | timeout_error
  | auth_error
  | invalid_request
  | content_error
  | unknown_error
  deriving DecidableEq, Repr

/-- Regex token for the small pattern subset used by the classifier tables:
literal characters, the optional wildcard `.?`, and character classes. -/
inductive RTok where
  /-- a literal character -/
  | lit (c : Char) : RTok
  /-- the pattern fragment `.?` (at most one arbitrary character) -/
  | anyOpt : RTok
  /-- a character class given as inclusive ranges, e.g. `[0-9]` or `[13]` -/
  | cls (ranges : List (Char × Char)) : RTok
  deriving DecidableEq, Repr

/-- Tokens of a purely literal pattern (every provider-specific pattern of
`error_classifier.py` is literal).  Lowercased because `classify_error`
lowercases the message and matches with `re.IGNORECASE`. -/
def litPat (s : String) : List RTok :=
  (pyLower s).data.map RTok.lit

/-- Does the token list match a prefix of the character list
(`re` matching for the subset: literal / `.?` / class)? -/
def matchToks : List RTok → List Char → Bool
  | [], _ => true
  | t :: ts, xs =>
    match t, xs with
    | RTok.lit c, x :: xs' => x == c && matchToks ts xs'
    | RTok.lit _, [] => false
    | RTok.anyOpt, [] => matchToks ts []
    | RTok.anyOpt, x :: xs' => matchToks ts (x :: xs') || matchToks ts xs'
    | RTok.cls rs, x :: xs' =>
        rs.any (fun r => r.1 ≤ x && x ≤ r.2) && matchToks ts xs'
    | RTok.cls _, [] => false

/-- Python's `re.search`: the pattern matches at some position of the text. -/
def reSearch (toks : List RTok) (text : List Char) : Bool :=
  text.tails.any (fun suf => matchToks toks suf)

/-- The `self.openai_patterns` table, in dict insertion order. -/
def openaiPatterns : List (ErrorType × List (List RTok)) :=
  [ (ErrorType.rate_limit,
      [litPat "rate_limit_exceeded", litPat "rate limit exceeded",
       litPat "too many requests", litPat "429",
       litPat "requests per minute", litPat "requests per day"]),
    (ErrorType.quota_exceeded,
      [litPat "quota exceeded", litPat "insufficient_quota",
       litPat "billing_not_active", litPat "usage limit exceeded",
       litPat "credit limit exceeded"]),
    (ErrorType.network_error,
      [litPat "connection error", litPat "network error",
       litPat "connection timeout", litPat "connection refused",
       litPat "dns resolution failed"]),
    (ErrorType.service_error,
      [litPat "service_unavailable", litPat "502 bad gateway",
       litPat "503 service unavailable", litPat "504 gateway timeout",
       litPat "internal server error", litPat "500"]),
    (ErrorType.timeout_error,
      [litPat "timeout", litPat "request timeout", litPat "read timeout",
       litPat "connection timeout"]),
    (ErrorType.auth_error,
      [litPat "invalid_api_key", litPat "unauthorized", litPat "401",
       litPat "403 forbidden", litPat "authentication failed"]),
    (ErrorType.invalid_request,
      [litPat "invalid_request_error", litPat "bad_request", litPat "400",
       litPat "malformed request", litPat "invalid parameter"]) ]

/-- The `self.claude_patterns` table, in dict insertion order. -/
def claudePatterns : List (ErrorType × List (List RTok)) :=
  [ (ErrorType.rate_limit,
      [litPat "rate_limit_error", litPat "rate limit exceeded",
       litPat "too_many_requests", litPat "429",
       litPat "requests per minute exceeded"]),
    (ErrorType.quota_exceeded,
      [litPat "credit_balance_too_low", litPat "usage_limit_exceeded",
       litPat "monthly limit exceeded", litPat "insufficient credits"]),
    (ErrorType.network_error,
      [litPat "connection_error", litPat "network_error",
       litPat "connection timeout", litPat "connection failed"]),
    (ErrorType.service_error,
      [litPat "overloaded_error", litPat "api_error",
       litPat "internal_server_error", litPat "service_unavailable",
       litPat "502", litPat "503"]),
    (ErrorType.timeout_error,
      [litPat "timeout_error", litPat "request_timeout",
       litPat "processing_timeout"]),
    (ErrorType.auth_error,
      [litPat "authentication_error", litPat "invalid_api_key",
       litPat "unauthorized", litPat "401", litPat "permission_error"]),
    (ErrorType.invalid_request,
      [litPat "invalid_request_error", litPat "validation_error",
       litPat "bad_request", litPat "400"]) ]

/-- The `self.gemini_patterns` table, in dict insertion order (uppercase
source patterns are lowercased by `litPat`, matching `re.IGNORECASE`). -/
def geminiPatterns : List (ErrorType × List (List RTok)) :=
  [ (ErrorType.rate_limit,
      [litPat "RATE_LIMIT_EXCEEDED", litPat "quota exceeded", litPat "429",
       litPat "too many requests", litPat "requests per minute"]),
    (ErrorType.quota_exceeded,
      [litPat "QUOTA_EXCEEDED", litPat "quota_exceeded",
       litPat "usage limit exceeded", litPat "daily limit exceeded"]),
    (ErrorType.network_error,
      [litPat "UNAVAILABLE", litPat "connection error",
       litPat "network error", litPat "connection timeout"]),
    (ErrorType.service_error,
      [litPat "INTERNAL", litPat "internal error",
       litPat "service unavailable", litPat "502", litPat "503"]),
    (ErrorType.timeout_error,
      [litPat "DEADLINE_EXCEEDED", litPat "timeout",
       litPat "request timeout"]),
    (ErrorType.auth_error,
      [litPat "UNAUTHENTICATED", litPat "PERMISSION_DENIED",
       litPat "invalid api key", litPat "401", litPat "403"]),
    (ErrorType.invalid_request,
      [litPat "INVALID_ARGUMENT", litPat "invalid request",
       litPat "bad request", litPat "400"]) ]

/-- The generic pattern table of `_get_generic_patterns`, in dict insertion
order.  Non-literal regexes are transcribed token by token; the original
pattern string is given alongside each. -/
def genericPatterns : List (ErrorType × List (List RTok)) :=
  [ (ErrorType.rate_limit,
      [ -- "rate.?limit"
        litPat "rate" ++ [RTok.anyOpt] ++ litPat "limit",
        -- "too.?many.?requests"
        litPat "too" ++ [RTok.anyOpt] ++ litPat "many" ++ [RTok.anyOpt] ++
          litPat "requests",
        litPat "429", litPat "throttle"]),
    (ErrorType.quota_exceeded,
      [ litPat "quota",
        -- "limit.?exceeded"
        litPat "limit" ++ [RTok.anyOpt] ++ litPat "exceeded",
        -- "usage.?limit"
        litPat "usage" ++ [RTok.anyOpt] ++ litPat "limit",
        litPat "credit"]),
    (ErrorType.network_error,
      [litPat "connection", litPat "network", litPat "dns", litPat "socket"]),
    (ErrorType.service_error,
      [ -- "50[0-9]"
        litPat "50" ++ [RTok.cls [('0', '9')]],
        -- "service.?unavailable"
        litPat "service" ++ [RTok.anyOpt] ++ litPat "unavailable",
        -- "internal.?server"
        litPat "internal" ++ [RTok.anyOpt] ++ litPat "server",
        -- "bad.?gateway"
        litPat "bad" ++ [RTok.anyOpt] ++ litPat "gateway"]),
    (ErrorType.timeout_error,
      [litPat "timeout", litPat "deadline"]),
    (ErrorType.auth_error,
      [ -- "40[13]"
        litPat "40" ++ [RTok.cls [('1', '1'), ('3', '3')]],
        litPat "unauthorized", litPat "forbidden", litPat "authentication",
        -- "api.?key"
        litPat "api" ++ [RTok.anyOpt] ++ litPat "key"]),
    (ErrorType.invalid_request,
      [ litPat "400",
        -- "bad.?request"
        litPat "bad" ++ [RTok.anyOpt] ++ litPat "request",
        litPat "invalid", litPat "malformed"]) ]

/-- Embeds `ErrorClassifier._match_error_patterns`: select the provider's table,
then return the first error type one of whose patterns matches, else
`UNKNOWN_ERROR`.  Both arguments are already lowercased by the caller. -/
def matchErrorPatterns (errorMessage provider : String) : ErrorType :=
  let patterns :=
    if substrIn "openai" provider || substrIn "gpt" provider then
      openaiPatterns
    else if substrIn "claude" provider || substrIn "anthropic" provider then
      claudePatterns
    else if substrIn "gemini" provider || substrIn "google" provider then
      geminiPatterns
    else
      genericPatterns
  match patterns.find?
      (fun entry => entry.2.any (fun p => reSearch p errorMessage.data)) with
  | some entry => entry.1
  | none => ErrorType.unknown_error

/-- The `self.retryable_errors` set of `ErrorClassifier.__init__`. -/
def retryableErrors : List ErrorType :=
  [ErrorType.rate_limit, ErrorType.quota_exceeded, ErrorType.network_error,
   ErrorType.service_error, ErrorType.timeout_error]

/-- The `self.suggested_delays` table of `ErrorClassifier.__init__`
(seconds); total over all nine error types, so the Python
`dict.get(error_type, 300)` default is never used. -/
def suggestedDelayTable : ErrorType → Nat
  | ErrorType.rate_limit => 300
  | ErrorType.quota_exceeded => 1800
  | ErrorType.network_error => 60
  | ErrorType.service_error => 300
  | ErrorType.timeout_error => 120
  | ErrorType.auth_error => 0
  | ErrorType.invalid_request => 0
  | ErrorType.content_error => 0
  | ErrorType.unknown_error => 300

/-- The structured failure reason returned by `classify_error`.  The
opportunistic diagnostic `details` dict is omitted: it carries only
observability data and no checked property mentions it. -/
structure FailureReason where
  error_type : ErrorType
  provider : String
  original_message : String
  is_retryable : Bool
  suggested_delay : Nat
  deriving DecidableEq, Repr

/-- Embeds `ErrorClassifier.classify_error`, with `str(error)` as `errMsg`. -/
def classifyError (errMsg provider : String) : FailureReason :=
  let errorMessage := pyLower errMsg
  let providerLower := pyLower provider
  let errorType := matchErrorPatterns errorMessage providerLower
  { error_type := errorType
    provider := provider
    original_message := errMsg
    is_retryable := retryableErrors.contains errorType
    suggested_delay := suggestedDelayTable errorType }

/-- Modelled from the spec: the retryability/backoff policy as the amended
claim states it — the five transient categories are retryable with their
positive table delays, the three definite-failure categories are not
retryable with zero delay, and `unknown_error` is not retryable but carries
the conservative 300-second delay. -/
def specRetryPolicy : ErrorType → Bool × Nat
  | ErrorType.rate_limit => (true, 300)
  | ErrorType.quota_exceeded => (true, 1800)
  | ErrorType.network_error => (true, 60)
  | ErrorType.service_error => (true, 300)
  | ErrorType.timeout_error => (true, 120)
  | ErrorType.auth_error => (false, 0)
  | ErrorType.invalid_request => (false, 0)
  | ErrorType.content_error => (false, 0)
  | ErrorType.unknown_error => (false, 300)

/-! ## Raw items (`shared/types.py`) -/

/-- The `Literal['ja', 'en']` language tag. -/
inductive Lang where
  | ja
  | en
  deriving DecidableEq, Repr

/-- The `RSSSource` dataclass. -/
structure RSSSource where
  url : String
  category : String
  language : Lang
  name : String
  enabled : Bool := true
  deriving DecidableEq, Repr

/-- The `RawNewsItem` dataclass together with the `id` attribute that
`__post_init__` attaches to every freshly constructed value.  Timestamps
are modelled as integers on an absolute time line. -/
structure RawNewsItem where
  title : String
  url : String
  published_at : Int
  source : RSSSource
  content : Option String := none
  id : String
  deriving DecidableEq, Repr

/-- Construction of a `RawNewsItem` as `__init__` plus `__post_init__`
perform it: the dataclass has no `id` field, so `hasattr(self, 'id')` is
false at `__post_init__` time and `self.id = str(uuid.uuid4())` always
runs.  The random draw of `uuid.uuid4()` is modelled as the explicitly
supplied fresh value `uuid4`. -/
def RawNewsItem.create (uuid4 : String) (title url : String)
    (published_at : Int) (source : RSSSource) (content : Option String) :
    RawNewsItem :=
  { title := title, url := url, published_at := published_at,
    source := source, content := content, id := uuid4 }

/-- A sample source descriptor used for concrete evaluations. -/
def sampleSource : RSSSource :=
  { url := "https://example.com/feed", category := "ai", language := Lang.ja,
    name := "Example Feed" }

/-! ## Retry queue (`shared/retry/retry_queue.py`)

Python `datetime` values are integers here; `datetime.isoformat` /
`datetime.fromisoformat` are a documented inverse pair in Python, so the
serialized timestamp string is modelled as a wrapper `IsoString` in
bijection with the time value. -/

/-- The result of `datetime.isoformat()`: a string representation in
bijection with the `datetime` it came from. -/
structure IsoString where
  value : Int
  deriving DecidableEq, Repr

/-- Embeds `datetime.isoformat()`. -/
def isoformat (t : Int) : IsoString :=
  ⟨t⟩

/-- Embeds `datetime.fromisoformat(s)` for a well-formed serialized timestamp. -/
def IsoString.fromiso (s : IsoString) : Int :=
  s.value

/-- The `article_data['source']` sub-dict built by
`RetryQueueItem.from_raw_news_item`. -/
structure SourceDict where
  url : String
  category : String
  language : Lang
  name : String
  enabled : Bool
  deriving DecidableEq, Repr

/-- The `article_data` dict built by `RetryQueueItem.from_raw_news_item`
(serialized form of a `RawNewsItem`), carried through serialization
unchanged. -/
structure ArticleData where
  id : String
  title : String
  url : String
  published_at : IsoString
  content : Option String
  source : SourceDict
  deriving DecidableEq, Repr

/-- The `RetryQueueItem` dataclass. -/
structure RetryQueueItem where
  id : String
  article_data : ArticleData
  failure_reason : String
  failure_timestamp : Int
  retry_count : Nat
  next_retry_time : Int
  provider_failures : List (String × Nat)
  max_retries : Nat := 5
  created_at : Int
  deriving DecidableEq, Repr

/-- Embeds `RetryQueueItem.is_expired`: `retry_count >= max_retries`. -/
def RetryQueueItem.isExpired (it : RetryQueueItem) : Bool :=
  it.max_retries ≤ it.retry_count

/-- Embeds `RetryQueueItem.can_retry_now`:
`datetime.now() >= next_retry_time and not is_expired()`. -/
def RetryQueueItem.canRetryNow (it : RetryQueueItem) (now : Int) : Bool :=
  it.next_retry_time ≤ now && !it.isExpired

/-- Serialized form of a `RetryQueueItem` (`to_dict` output).  Each field
is optional so that a malformed persisted dict with missing keys is
representable; `data['k']` on a missing key raises `KeyError`. -/
structure RetryQueueItemDict where
  id : Option String := none
  article_data : Option ArticleData := none
  failure_reason : Option String := none
  failure_timestamp : Option IsoString := none
  retry_count : Option Nat := none
  next_retry_time : Option IsoString := none
  provider_failures : Option (List (String × Nat)) := none
  max_retries : Option Nat := none
  created_at : Option IsoString := none
  deriving DecidableEq, Repr

/-- Python's `data['k']`: the value when the key is present, a `KeyError`
otherwise. -/
def getKey (key : String) : Option α → Except PyErr α
  | some v => Except.ok v
  | none => Except.error (PyErr.keyError key)

/-- Embeds `RetryQueueItem.to_dict`. -/
def RetryQueueItem.toDict (it : RetryQueueItem) : RetryQueueItemDict :=
  { id := some it.id
    article_data := some it.article_data
    failure_reason := some it.failure_reason
    failure_timestamp := some (isoformat it.failure_timestamp)
    retry_count := some it.retry_count
    next_retry_time := some (isoformat it.next_retry_time)
    provider_failures := some it.provider_failures
    max_retries := some it.max_retries
    created_at := some (isoformat it.created_at) }

/-- Embeds `RetryQueueItem.from_dict`: every field is a mandatory `data['k']`
access; timestamps go through `datetime.fromisoformat`. -/
def RetryQueueItem.fromDict (d : RetryQueueItemDict) :
    Except PyErr RetryQueueItem := do
  let id ← getKey "id" d.id
  let articleData ← getKey "article_data" d.article_data
  let failureReason ← getKey "failure_reason" d.failure_reason
  let failureTimestamp ← getKey "failure_timestamp" d.failure_timestamp
  let retryCount ← getKey "retry_count" d.retry_count
  let nextRetryTime ← getKey "next_retry_time" d.next_retry_time
  let providerFailures ← getKey "provider_failures" d.provider_failures
  let maxRetries ← getKey "max_retries" d.max_retries
  let createdAt ← getKey "created_at" d.created_at
  Except.ok
    { id := id, article_data := articleData, failure_reason := failureReason,
      failure_timestamp := failureTimestamp.fromiso, retry_count := retryCount,
      next_retry_time := nextRetryTime.fromiso,
      provider_failures := providerFailures, max_retries := maxRetries,
      created_at := createdAt.fromiso }

/-- The `RetryQueue` dataclass. -/
structure RetryQueue where
  items : List RetryQueueItem := []
  last_updated : Int
  total_processed : Nat := 0
  total_succeeded : Nat := 0
  total_failed : Nat := 0
  deriving DecidableEq, Repr

/-- Embeds `RetryQueue()` freshly constructed: empty items, zero counters,
`last_updated = datetime.now()`. -/
def emptyRetryQueue (now : Int) : RetryQueue :=
  { last_updated := now }

/-- The item-list update of `RetryQueue.add_item`: scan for the first
entry with the same id and replace it in place, else append. -/
def addToItems (item : RetryQueueItem) : List RetryQueueItem → List RetryQueueItem
  | [] => [item]
  | x :: xs =>
      if x.id == item.id then item :: xs else x :: addToItems item xs

/-- Embeds `RetryQueue.add_item` (also refreshes `last_updated` to `now`). -/
def RetryQueue.addItem (q : RetryQueue) (item : RetryQueueItem) (now : Int) :
    RetryQueue :=
  { q with items := addToItems item q.items, last_updated := now }

/-- Serialized form of a `RetryQueue` (`to_dict` output), with optional
fields because `from_dict` reads each through `dict.get` with a default. -/
structure RetryQueueDict where
  items : Option (List RetryQueueItemDict) := none
  last_updated : Option IsoString := none
  total_processed : Option Nat := none
  total_succeeded : Option Nat := none
  total_failed : Option Nat := none
  deriving DecidableEq, Repr

/-- Embeds `RetryQueue.to_dict`. -/
def RetryQueue.toDict (q : RetryQueue) : RetryQueueDict :=
  { items := some (q.items.map RetryQueueItem.toDict)
    last_updated := some (isoformat q.last_updated)
    total_processed := some q.total_processed
    total_succeeded := some q.total_succeeded
    total_failed := some q.total_failed }

/-- The list comprehension of `RetryQueue.from_dict`:
`[RetryQueueItem.from_dict(d) for d in data.get('items', [])]`, with the
first raised exception propagating. -/
def itemsFromDicts : List RetryQueueItemDict → Except PyErr (List RetryQueueItem)
  | [] => Except.ok []
  | d :: ds =>
      match RetryQueueItem.fromDict d with
      | Except.error e => Except.error e
      | Except.ok it =>
          match itemsFromDicts ds with
          | Except.error e => Except.error e
          | Except.ok rest => Except.ok (it :: rest)

/-- Embeds `RetryQueue.from_dict`.  `now` is `datetime.now()`, used only when the
`last_updated` key is absent (`data.get('last_updated',
datetime.now().isoformat())`). -/
def RetryQueue.fromDict (d : RetryQueueDict) (now : Int) :
    Except PyErr RetryQueue :=
  match itemsFromDicts (d.items.getD []) with
  | Except.error e => Except.error e
  | Except.ok items =>
      Except.ok
        { items := items
          last_updated := (d.last_updated.getD (isoformat now)).fromiso
          total_processed := d.total_processed.getD 0
          total_succeeded := d.total_succeeded.getD 0
          total_failed := d.total_failed.getD 0 }

/-- A sample `article_data` payload for concrete evaluations. -/
def sampleArticleData : ArticleData :=
  { id := "item-1", title := "Sample", url := "https://example.com/a",
    published_at := isoformat 100, content := none,
    source := { url := "https://example.com/feed", category := "ai",
                language := Lang.ja, name := "Example Feed",
                enabled := true } }

/-- A sample retry-queue item for concrete evaluations. -/
def sampleItem : RetryQueueItem :=
  { id := "item-1", article_data := sampleArticleData,
    failure_reason := "rate_limit", failure_timestamp := 1000,
    retry_count := 0, next_retry_time := 1300, provider_failures := [],
    created_at := 1000 }

/-! ## Deduplication (`shared/collectors/rss_collector.py`) -/

/-- Python's `str.split()` with no argument on a character list: maximal
runs of non-whitespace characters, empty runs dropped.  `acc` holds the
characters of the current word in reverse. -/
def pyWordsAux : List Char → List Char → List (List Char)
  | [], acc => if acc.isEmpty then [] else [acc.reverse]
  | c :: cs, acc =>
      if c.isWhitespace then
        if acc.isEmpty then pyWordsAux cs []
        else acc.reverse :: pyWordsAux cs []
      else pyWordsAux cs (c :: acc)

/-- Embeds `RSSCollector._generate_title_hash`: the title is lowercased and its
whitespace collapsed (`' '.join(title.lower().split())`), then hashed with
SHA-256.  SHA-256 is injective on the inputs that occur in practice, so the
hash is modelled as the normalized title itself: two titles collide exactly
when their normalizations are equal. -/
def generateTitleHash (title : String) : String :=
  ⟨List.intercalate [' '] (pyWordsAux (pyLower title).data [])⟩

/-- The loop of `RSSCollector.deduplicate`: drop an article whose URL was
already seen, else drop it when its title hash was already seen, else keep
it and record its URL and title hash.  The Python `set`s are modelled as
lists with membership. -/
def dedupAux (seenUrls seenHashes : List String) :
    List RawNewsItem → List RawNewsItem
  | [] => []
  | a :: rest =>
      if seenUrls.contains a.url then
        dedupAux seenUrls seenHashes rest
      else if seenHashes.contains (generateTitleHash a.title) then
        dedupAux seenUrls seenHashes rest
      else
        a :: dedupAux (a.url :: seenUrls)
          (generateTitleHash a.title :: seenHashes) rest

/-- Embeds `RSSCollector.deduplicate`. -/
def deduplicate (articles : List RawNewsItem) : List RawNewsItem :=
  dedupAux [] [] articles

/-! ## Provider health and trend analysis (`shared/ai/multi_summarizer.py`) -/

/-- The `AIProvider` enumeration. -/
inductive AIProvider where
  | claude
  | openai
  | gemini
  | local
  deriving DecidableEq, Repr

/-- A Python value stored in `ProviderStatus.rate_limit_reset`.  The field
is `None` (absent), a `datetime`, or — as actually assigned by
`summarize_article` — a Unix-epoch `float` from `datetime.now().timestamp()
+ 300`.  Both carry a point on the same time line, but they are distinct
Python runtime types and do not compare with each other. -/
inductive PyTime where
  /-- a `datetime` value -/
  | dt (t : Int) : PyTime
  /-- a `float` Unix timestamp -/
  | floatTs (t : Int) : PyTime
  deriving DecidableEq, Repr

/-- The `ProviderStatus` health record. -/
structure ProviderStatus where
  available : Bool := true
  last_error : Option String := none
  error_count : Nat := 0
  last_used : Option Int := none
  rate_limit_reset : Option PyTime := none
  deriving DecidableEq, Repr

/-- Embeds `ProviderStatus.mark_error`: increment the error counter, remember the
message, and flip `available` off once three or more consecutive errors
have accumulated. -/
def ProviderStatus.markError (s : ProviderStatus) (error : String) :
    ProviderStatus :=
  let errorCount := s.error_count + 1
  { s with error_count := errorCount
           last_error := some error
           available := if 3 ≤ errorCount then false else s.available }

/-- Embeds `ProviderStatus.mark_success`: reset the error counter, clear the last
error, flip `available` on, and stamp `last_used`. -/
def ProviderStatus.markSuccess (s : ProviderStatus) (now : Int) :
    ProviderStatus :=
  { s with error_count := 0, last_error := none, available := true,
           last_used := some now }

/-- Embeds `ProviderStatus.is_rate_limited`:
`if self.rate_limit_reset and datetime.now() < self.rate_limit_reset`.
`None` is falsy, so the comparison is skipped; a `datetime` value compares
normally; a `float` value makes `datetime < float` raise a `TypeError`. -/
def ProviderStatus.isRateLimited (s : ProviderStatus) (now : Int) :
    Except PyErr Bool :=
  match s.rate_limit_reset with
  | none => Except.ok false
  | some (PyTime.dt t) => Except.ok (decide (now < t))
  | some (PyTime.floatTs _) => Except.error PyErr.typeError

/-- The error handler of `MultiAISummarizer.summarize_article` for one
provider attempt: `mark_error(str(e))`, and when the message mentions
`rate_limit` or `429`, store `datetime.now().timestamp() + 300` — a Unix
`float`, not a `datetime` — into `rate_limit_reset`. -/
def handleProviderError (s : ProviderStatus) (errMsg : String) (now : Int) :
    ProviderStatus :=
  let s' := s.markError errMsg
  if substrIn "rate_limit" (pyLower errMsg) || substrIn "429" errMsg then
    { s' with rate_limit_reset := some (PyTime.floatTs (now + 300)) }
  else s'

/-- The `NewsItem` dataclass (confidence modelled as a rational). -/
structure NewsItem where
  id : String
  title : String
  original_title : String
  summary : String
  url : String
  source : String
  category : String
  published_at : Int
  language : Lang
  tags : List String
  ai_confidence : ℚ
  deriving DecidableEq, Repr

/-- The `DailySummary` dataclass.  `category_breakdown` keeps the dict's
insertion order as an association list. -/
structure DailySummary where
  date : String
  total_articles : Nat
  top_trends : List String
  significant_news : List NewsItem
  category_breakdown : List (String × Nat)
  summary_ja : String
  summary_en : String
  generated_at : Int
  deriving DecidableEq, Repr

/-- Python `counts[k] = counts.get(k, 0) + 1` on an insertion-ordered
dict modelled as an association list. -/
def tallyInc (k : String) : List (String × Nat) → List (String × Nat)
  | [] => [(k, 1)]
  | (k', n) :: rest =>
      if k' == k then (k', n + 1) :: rest else (k', n) :: tallyInc k rest

/-- Embeds `MultiAISummarizer._create_empty_summary` (with `today` for
`datetime.now().strftime('%Y-%m-%d')` and `now` for `datetime.now()`). -/
def createEmptySummary (today : String) (now : Int) : DailySummary :=
  { date := today, total_articles := 0, top_trends := [],
    significant_news := [], category_breakdown := [],
    summary_ja := "本日はAI関連のニュースがありませんでした。",
    summary_en := "No AI-related news today.", generated_at := now }

/-- Embeds `MultiAISummarizer._create_basic_summary`: category tally, top five
items by descending confidence (stable, ties in original order, as
Python's `sorted(..., reverse=True)`), and top five tags by descending
frequency as trends. -/
def createBasicSummary (articles : List NewsItem) (today : String)
    (now : Int) : DailySummary :=
  let categoryBreakdown :=
    articles.foldl (fun acc a => tallyInc a.category acc) []
  let significantNews :=
    (articles.mergeSort
      (fun a b => decide (b.ai_confidence ≤ a.ai_confidence))).take 5
  let tagCounts :=
    articles.foldl (fun acc a => a.tags.foldl (fun m t => tallyInc t m) acc) []
  let topTrends :=
    ((tagCounts.mergeSort (fun x y => decide (y.2 ≤ x.2))).take 5).map
      Prod.fst
  { date := today, total_articles := articles.length,
    top_trends := topTrends, significant_news := significantNews,
    category_breakdown := categoryBreakdown,
    summary_ja :=
      "本日は" ++ toString articles.length ++
        "件のAI関連ニュースを収集しました。",
    summary_en :=
      "Collected " ++ toString articles.length ++
        " AI-related news articles today.",
    generated_at := now }

/-- The filtering loop of `_select_provider`: keep providers whose status
is `available` and not rate-limited.  Python's `and` short-circuits, so
`is_rate_limited` runs (and can raise) only for available providers; a
raised `TypeError` propagates. -/
def availableProviders (statuses : List (AIProvider × ProviderStatus))
    (now : Int) : Except PyErr (List AIProvider) :=
  match statuses with
  | [] => Except.ok []
  | (p, s) :: rest =>
      if s.available then
        match s.isRateLimited now with
        | Except.error e => Except.error e
        | Except.ok true => availableProviders rest now
        | Except.ok false =>
            match availableProviders rest now with
            | Except.error e => Except.error e
            | Except.ok r => Except.ok (p :: r)
      else availableProviders rest now

/-- The `task_preferences["analyze"]` ordering of `_select_provider`. -/
def analyzeTaskOrder : List AIProvider :=
  [AIProvider.claude, AIProvider.gemini, AIProvider.openai, AIProvider.local]

/-- Embeds `MultiAISummarizer._select_provider("analyze")`: `None` when no
provider is available; otherwise the first provider of the task ordering
that is available.  The `random.choice` fallback is modelled by the head
of the available list; it is unreachable for the `analyze` task because
the task ordering enumerates every provider variant. -/
def selectProviderAnalyze (statuses : List (AIProvider × ProviderStatus))
    (now : Int) : Except PyErr (Option AIProvider) :=
  match availableProviders statuses now with
  | Except.error e => Except.error e
  | Except.ok avail =>
      if avail.isEmpty then
        Except.ok none
      else
        match analyzeTaskOrder.find? (fun p => avail.contains p) with
        | some p => Except.ok (some p)
        | none => Except.ok avail.head?

/-- Embeds `MultiAISummarizer.analyze_daily_trends`.  The chosen backend's
`analyze_daily_trends` coroutine is an external AI call, modelled as the
oracle `calls`; `today`/`now` stand for `datetime.now()`.  A provider
call that raises is caught and answered with the basic summary; failure
to select a provider at all yields the empty summary; an exception raised
by `_select_provider` itself is not caught.  (The `mark_success` /
`mark_error` bookkeeping on the chosen provider's health record is not
returned, as no checked property reads it from this operation.) -/
def analyzeDailyTrends (statuses : List (AIProvider × ProviderStatus))
    (calls : AIProvider → Except String DailySummary)
    (articles : List NewsItem) (today : String) (now : Int) :
    Except PyErr DailySummary :=
  match selectProviderAnalyze statuses now with
  | Except.error e => Except.error e
  | Except.ok none => Except.ok (createEmptySummary today now)
  | Except.ok (some p) =>
      match calls p with
      | Except.ok r => Except.ok r
      | Except.error _ => Except.ok (createBasicSummary articles today now)

/-- A sample processed item for concrete evaluations. -/
def sampleNewsItem : NewsItem :=
  { id := "n-1", title := "要約タイトル", original_title := "Original",
    summary := "summary", url := "https://example.com/a",
    source := "Example Feed", category := "ai", published_at := 100,
    language := Lang.ja, tags := ["llm", "research"],
    ai_confidence := (9 : ℚ) / 10 }

/-! ## Persisted queue loading (`shared/retry/retry_storage.py`) -/

/-- The self-describing save structure written by `RetryStorage.save_queue`:
`{'version', 'saved_at', 'queue'}`, each read back via `dict.get`. -/
structure SaveData where
  version : Option String := none
  saved_at : Option IsoString := none
  queue : Option RetryQueueDict := none
  deriving DecidableEq, Repr

/-- The state of the persisted retry-queue file as `load_queue` finds it:
missing, present but not decodable as JSON (`json.load` raises
`JSONDecodeError`), or decodable into a save structure whose payload may
still fail to deserialize. -/
inductive PersistedFile where
  | missing
  | corruptJson
  | parsed (data : SaveData)
  deriving DecidableEq, Repr

/-- What `RetryStorage.load_queue` produced: the returned value (`None` on
a swallowed generic exception) and whether `_create_backup` set the old
file aside. -/
structure LoadOutcome where
  result : Option RetryQueue
  backupCreated : Bool
  deriving DecidableEq, Repr

/-- Embeds `RetryStorage.load_queue`: a missing file yields a fresh empty queue;
a `JSONDecodeError` yields a backup plus a fresh empty queue; decodable
JSON is deserialized with `RetryQueue.from_dict(data.get('queue', {}))`,
and an exception raised there lands in the generic `except Exception`
handler, which returns `None` without creating a backup. -/
def loadQueue (f : PersistedFile) (now : Int) : LoadOutcome :=
  match f with
  | PersistedFile.missing =>
      { result := some (emptyRetryQueue now), backupCreated := false }
  | PersistedFile.corruptJson =>
      { result := some (emptyRetryQueue now), backupCreated := true }
  | PersistedFile.parsed d =>
      match RetryQueue.fromDict (d.queue.getD {}) now with
      | Except.ok q => { result := some q, backupCreated := false }
      | Except.error _ => { result := none, backupCreated := false }

/-- A persisted save structure that is valid JSON but whose single queue
entry lacks every field except `id`, so `RetryQueueItem.from_dict` raises
`KeyError('article_data')`. -/
def malformedSaveData : SaveData :=
  { version := some "1.0", saved_at := some (isoformat 0),
    queue := some { items := some [{ id := some "item-1" }],
                    last_updated := some (isoformat 0),
                    total_processed := some 0, total_succeeded := some 0,
                    total_failed := some 0 } }

/-- A freshly initialized provider health record (`ProviderStatus.__init__`). -/
def freshProviderStatus : ProviderStatus :=
  {}

/-- A provider health record disabled after three consecutive errors. -/
def unavailableStatus : ProviderStatus :=
  { available := false, error_count := 3, last_error := some "overloaded_error" }

/-- The sample item re-enqueued after a failed retry (same identity,
bumped attempt counter). -/
def sampleItemRetry : RetryQueueItem :=
  { sampleItem with retry_count := 1, next_retry_time := 1600 }

/-- A collected article used in deduplication evaluations. -/
def dupTitleArticleA : RawNewsItem :=
  RawNewsItem.create "uuid-a" "AI News" "https://example.com/a" 100
    sampleSource none

/-- A second collected article: different canonical URL, same title up to
lowercasing and whitespace collapsing. -/
def dupTitleArticleB : RawNewsItem :=
  RawNewsItem.create "uuid-b" "ai  NEWS" "https://example.com/b" 101
    sampleSource none

/-! ## Theorems -/

theorem classifyError_error_type (m p : String) :
    (classifyError m p).error_type =
      matchErrorPatterns (pyLower m) (pyLower p) :=
  rfl

theorem classifyError_is_retryable (m p : String) :
    (classifyError m p).is_retryable =
      retryableErrors.contains (matchErrorPatterns (pyLower m) (pyLower p)) :=
  rfl

theorem classifyError_suggested_delay (m p : String) :
    (classifyError m p).suggested_delay =
      suggestedDelayTable (matchErrorPatterns (pyLower m) (pyLower p)) :=
  rfl

/-- C1 (amended): for every error message and provider name, the
`FailureReason` returned by `classify_error` follows the static policy
table: the five transient categories are retryable with their positive
table delays (300/1800/60/300/120 s), `auth_error`, `invalid_request` and
`content_error` are not retryable with delay 0, and `unknown_error` is
not retryable but carries the conservative delay 300, not 0. -/
theorem classify_error_retry_policy (errMsg provider : String) :
    ((classifyError errMsg provider).is_retryable,
      (classifyError errMsg provider).suggested_delay) =
      specRetryPolicy (classifyError errMsg provider).error_type := by
  rw [classifyError_is_retryable, classifyError_suggested_delay,
    classifyError_error_type]
  generalize matchErrorPatterns (pyLower errMsg) (pyLower provider) = et
  cases et <;> rfl

/-- C1 counterexample: the message `"hello"` from provider `"openai"`
matches no pattern, so it classifies as `unknown_error` with
`is_retryable == false` but `suggested_delay == 300`, contradicting the
claim that an unknown classification has `suggested_delay == 0`. -/
theorem classify_error_unknown_delay_counterexample :
    (classifyError "hello" "openai").error_type = ErrorType.unknown_error ∧
    (classifyError "hello" "openai").is_retryable = false ∧
    (classifyError "hello" "openai").suggested_delay = 300 :=
  ⟨by decide, by decide, by decide⟩

/-- C2 (amended): the identity assigned at `RawNewsItem` construction is
exactly the fresh `uuid.uuid4()` draw — it does not depend on the item's
title, URL or any other field, so two constructions agree on identity
precisely when their random draws agree. -/
theorem raw_item_id_is_uuid_draw (u t r : String) (p : Int) (s : RSSSource)
    (c : Option String) (t' r' : String) (p' : Int) (s' : RSSSource)
    (c' : Option String) :
    (RawNewsItem.create u t r p s c).id = u ∧
    (RawNewsItem.create u t r p s c).id =
      (RawNewsItem.create u t' r' p' s' c').id :=
  ⟨rfl, rfl⟩

/-- C2 counterexample: two constructions for the same underlying document
(equal title and URL) with distinct `uuid4` draws yield distinct
identities, so identity is not derived from the URL/title. -/
theorem raw_item_identity_counterexample :
    (RawNewsItem.create "draw-1" "Same Title" "https://example.com/x" 100
        sampleSource none).title =
      (RawNewsItem.create "draw-2" "Same Title" "https://example.com/x" 100
        sampleSource none).title ∧
    (RawNewsItem.create "draw-1" "Same Title" "https://example.com/x" 100
        sampleSource none).url =
      (RawNewsItem.create "draw-2" "Same Title" "https://example.com/x" 100
        sampleSource none).url ∧
    ((RawNewsItem.create "draw-1" "Same Title" "https://example.com/x" 100
        sampleSource none).id ==
      (RawNewsItem.create "draw-2" "Same Title" "https://example.com/x" 100
        sampleSource none).id) = false :=
  ⟨rfl, rfl, by decide⟩

theorem addToItems_addToItems (a b : RetryQueueItem) (h : a.id = b.id) :
    ∀ l, addToItems b (addToItems a l) = addToItems b l := by
  intro l
  induction l with
  | nil => simp [addToItems, h]
  | cons x xs ih =>
      by_cases hx : x.id = a.id
      · simp [addToItems, hx, h]
      · have hxb : ¬x.id = b.id := h ▸ hx
        simp [addToItems, hx, hxb, ih]

theorem length_addToItems_of_id_eq (a b : RetryQueueItem) (h : a.id = b.id) :
    ∀ l, (addToItems a l).length = (addToItems b l).length := by
  intro l
  induction l with
  | nil => rfl
  | cons x xs ih =>
      by_cases hx : x.id = a.id
      · have hxb : x.id = b.id := by rw [hx, h]
        simp [addToItems, hx, hxb, h]
      · have hxb : ¬x.id = b.id := h ▸ hx
        simp [addToItems, hx, hxb, ih]

theorem filter_addToItems (x : RetryQueueItem) :
    ∀ l, (l.map RetryQueueItem.id).Nodup →
      (addToItems x l).filter (fun y => y.id == x.id) = [x] := by
  intro l
  induction l with
  | nil => simp [addToItems]
  | cons a as ih =>
      intro hnd
      rw [List.map_cons, List.nodup_cons] at hnd
      by_cases ha : a.id = x.id
      · have : as.filter (fun y => y.id == x.id) = [] := by
          rw [List.filter_eq_nil_iff]
          intro y hy
          have hmem : y.id ∈ as.map RetryQueueItem.id :=
            List.mem_map_of_mem _ hy
          simp only [beq_iff_eq]
          intro hyx
          exact hnd.1 (by rwa [hyx, ← ha] at hmem)
        simp [addToItems, ha, this]
      · simp [addToItems, ha, ih hnd.2]

/-- C3: on a queue satisfying the at-most-one-entry-per-identity
invariant, adding `a` and then `b` with `a.id = b.id` is the same as
adding `b` once: the length equals the length after a single add, and the
unique entry carrying that identity is `b` — re-adding updates in place
and never duplicates. -/
theorem retry_queue_add_replaces (q : RetryQueue) (a b : RetryQueueItem)
    (t1 t2 : Int) (hid : a.id = b.id)
    (hnd : (q.items.map RetryQueueItem.id).Nodup) :
    ((q.addItem a t1).addItem b t2).items = (q.addItem b t2).items ∧
    ((q.addItem a t1).addItem b t2).items.length =
      (q.addItem a t1).items.length ∧
    ((q.addItem a t1).addItem b t2).items.filter (fun y => y.id == b.id) =
      [b] := by
  have heq : addToItems b (addToItems a q.items) = addToItems b q.items :=
    addToItems_addToItems a b hid q.items
  refine ⟨heq, ?_, ?_⟩
  · show (addToItems b (addToItems a q.items)).length =
      (addToItems a q.items).length
    rw [heq, ← length_addToItems_of_id_eq a b hid]
  · show (addToItems b (addToItems a q.items)).filter
        (fun y => y.id == b.id) = [b]
    rw [heq]
    exact filter_addToItems b q.items hnd

/-- C3 witness: adding the sample item and then its re-enqueued update to
a fresh queue leaves a single entry, the update. -/
theorem retry_queue_add_replaces_witness :
    (((emptyRetryQueue 0).addItem sampleItem 1).addItem sampleItemRetry 2).items
        = ((emptyRetryQueue 0).addItem sampleItemRetry 2).items ∧
    (((emptyRetryQueue 0).addItem sampleItem 1).addItem sampleItemRetry
          2).items.length =
      ((emptyRetryQueue 0).addItem sampleItem 1).items.length ∧
    (((emptyRetryQueue 0).addItem sampleItem 1).addItem sampleItemRetry
          2).items.filter (fun y => y.id == sampleItemRetry.id) =
      [sampleItemRetry] :=
  retry_queue_add_replaces (emptyRetryQueue 0) sampleItem sampleItemRetry 1 2
    (by decide) (by decide)

/-- C4: an entry whose attempt counter has reached its maximum reports
`is_expired() == true`, and `can_retry_now()` is false at every clock
time, whatever the scheduled `next_retry_time`. -/
theorem expired_item_never_retries (it : RetryQueueItem) (now : Int)
    (h : it.max_retries ≤ it.retry_count) :
    it.isExpired = true ∧ it.canRetryNow now = false := by
  have he : it.isExpired = true := by
    simp [RetryQueueItem.isExpired, h]
  refine ⟨he, ?_⟩
  simp [RetryQueueItem.canRetryNow, he]

/-- C4 witness: the sample item at five attempts is expired and cannot
retry even at a time far past its scheduled retry time. -/
theorem expired_item_never_retries_witness :
    ({ sampleItem with retry_count := 5 } : RetryQueueItem).isExpired = true ∧
    ({ sampleItem with retry_count := 5 } : RetryQueueItem).canRetryNow 99999
      = false :=
  expired_item_never_retries { sampleItem with retry_count := 5 } 99999
    (by decide)

theorem item_fromDict_toDict (it : RetryQueueItem) :
    RetryQueueItem.fromDict it.toDict = Except.ok it := by
  cases it
  rfl

theorem itemsFromDicts_map_toDict :
    ∀ l : List RetryQueueItem,
      itemsFromDicts (l.map RetryQueueItem.toDict) = Except.ok l := by
  intro l
  induction l with
  | nil => rfl
  | cons x xs ih =>
      rw [List.map_cons, itemsFromDicts, item_fromDict_toDict, ih]

/-- C5: serializing a retry queue with `to_dict` and deserializing with
`from_dict` reproduces the queue exactly — every entry field for field
(timestamps round-tripped through their serialized form) and the counters
`total_processed`, `total_succeeded`, `total_failed` and `last_updated`. -/
theorem retry_queue_dict_round_trip (q : RetryQueue) (now : Int) :
    RetryQueue.fromDict q.toDict now = Except.ok q := by
  unfold RetryQueue.fromDict
  rw [show q.toDict.items.getD [] = q.items.map RetryQueueItem.toDict from rfl,
    itemsFromDicts_map_toDict]
  rfl

theorem contains_cons_false {a x : String} {l : List String}
    (h : (a :: l).contains x = false) :
    (x == a) = false ∧ l.contains x = false := by
  rw [List.contains_cons, Bool.or_eq_false_iff] at h
  exact h

theorem mem_dedupAux {x : RawNewsItem} :
    ∀ (l : List RawNewsItem) (su sh : List String),
      x ∈ dedupAux su sh l →
        su.contains x.url = false ∧
        sh.contains (generateTitleHash x.title) = false := by
  intro l
  induction l with
  | nil => intro su sh hx; simp [dedupAux] at hx
  | cons a rest ih =>
      intro su sh hx
      simp only [dedupAux] at hx
      by_cases hu : su.contains a.url = true
      · rw [if_pos hu] at hx
        exact ih su sh hx
      · rw [if_neg hu] at hx
        by_cases hh : sh.contains (generateTitleHash a.title) = true
        · rw [if_pos hh] at hx
          exact ih su sh hx
        · rw [if_neg hh] at hx
          rcases List.mem_cons.mp hx with rfl | hx2
          · exact ⟨by simpa using hu, by simpa using hh⟩
          · have h2 := ih _ _ hx2
            exact ⟨(contains_cons_false h2.1).2, (contains_cons_false h2.2).2⟩

theorem dedupAux_sublist :
    ∀ (l : List RawNewsItem) (su sh : List String),
      List.Sublist (dedupAux su sh l) l := by
  intro l
  induction l with
  | nil => intro su sh; simp [dedupAux]
  | cons a rest ih =>
      intro su sh
      simp only [dedupAux]
      by_cases hu : su.contains a.url = true
      · rw [if_pos hu]
        exact List.Sublist.cons a (ih su sh)
      · rw [if_neg hu]
        by_cases hh : sh.contains (generateTitleHash a.title) = true
        · rw [if_pos hh]
          exact List.Sublist.cons a (ih su sh)
        · rw [if_neg hh]
          exact List.Sublist.cons₂ a (ih _ _)

theorem beq_false_of_contains_head {a x : String} {l : List String}
    (h : (x :: l).contains a = false) : (x == a) = false := by
  have h1 := (contains_cons_false h).1
  rw [beq_eq_false_iff_ne] at h1 ⊢
  exact fun hxa => h1 hxa.symm

theorem dedupAux_pairwise :
    ∀ (l : List RawNewsItem) (su sh : List String),
      (dedupAux su sh l).Pairwise
        (fun a b => (a.url == b.url) = false ∧
          (generateTitleHash a.title == generateTitleHash b.title) = false) := by
  intro l
  induction l with
  | nil => intro su sh; simp [dedupAux]
  | cons a rest ih =>
      intro su sh
      simp only [dedupAux]
      by_cases hu : su.contains a.url = true
      · rw [if_pos hu]; exact ih su sh
      · rw [if_neg hu]
        by_cases hh : sh.contains (generateTitleHash a.title) = true
        · rw [if_pos hh]; exact ih su sh
        · rw [if_neg hh]
          refine List.Pairwise.cons ?_ (ih _ _)
          intro y hy
          have h2 := mem_dedupAux _ _ _ hy
          exact ⟨beq_false_of_contains_head h2.1,
            beq_false_of_contains_head h2.2⟩

/-- C6 (amended): `deduplicate` keeps at most one item per exact canonical
URL and at most one per normalized-title fingerprint — any two surviving
items differ in both — and the survivors appear in first-seen insertion
order (the output is a sublist of the input).  Because an item dropped by
the title check does not record its URL (and vice versa), a URL class of
the input can also end up with no surviving representative, so "exactly
one per class, the first encountered" does not hold. -/
theorem deduplicate_keeps_unique (articles : List RawNewsItem) :
    List.Sublist (deduplicate articles) articles ∧
    (deduplicate articles).Pairwise (fun a b => (a.url == b.url) = false) ∧
    (deduplicate articles).Pairwise
      (fun a b =>
        (generateTitleHash a.title == generateTitleHash b.title) = false) := by
  refine ⟨dedupAux_sublist articles [] [], ?_, ?_⟩
  · exact (dedupAux_pairwise articles [] []).imp (fun h => h.1)
  · exact (dedupAux_pairwise articles [] []).imp (fun h => h.2)

/-- C6 counterexample: two articles with distinct canonical URLs whose
titles agree after normalization.  The second is dropped by the title
check, so its URL class (a nonempty class of the input) keeps zero items,
refuting "exactly one item per exact-canonical-URL equivalence class, the
first encountered". -/
theorem deduplicate_url_class_counterexample :
    deduplicate [dupTitleArticleA, dupTitleArticleB] = [dupTitleArticleA] ∧
    (dupTitleArticleA.url == dupTitleArticleB.url) = false ∧
    generateTitleHash dupTitleArticleA.title =
      generateTitleHash dupTitleArticleB.title :=
  ⟨by decide, by decide, by decide⟩

/-- C7 (code bug): after a provider failure whose message mentions a rate
limit, `summarize_article` stores `datetime.now().timestamp() + 300` — a
Unix-epoch `float` 300 seconds ahead — into `rate_limit_reset`, but
`is_rate_limited` compares it against `datetime.now()`, a `datetime`, so
every subsequent `is_rate_limited` call (hence `_select_provider`) raises
`TypeError` instead of excluding the provider until the cooldown passes.
The other health-bookkeeping conjuncts hold: three consecutive errors
disable the provider, and a success resets the counter and availability. -/
theorem provider_rate_limit_reset_type_bug :
    (handleProviderError freshProviderStatus "rate_limit exceeded"
        1000).rate_limit_reset = some (PyTime.floatTs 1300) ∧
    (∀ t : Int,
      (handleProviderError freshProviderStatus "rate_limit exceeded"
          1000).isRateLimited t = Except.error PyErr.typeError) ∧
    (((freshProviderStatus.markError "e1").markError "e2").markError
        "e3").available = false ∧
    (∀ (s : ProviderStatus) (now : Int),
      (s.markSuccess now).error_count = 0 ∧
        (s.markSuccess now).available = true) :=
  ⟨rfl, fun _ => rfl, rfl, fun _ _ => ⟨rfl, rfl⟩⟩

/-- C8 (amended): on load, only a file that is not decodable as JSON at
all (`json.JSONDecodeError`) is backed up and replaced by a fresh empty
queue; decodable JSON whose fields cannot be deserialized into queue
entries is caught by the generic exception handler, which returns `None`
without creating a backup. -/
theorem load_queue_backup_policy (d : SaveData) (now : Int) (e : PyErr)
    (h : RetryQueue.fromDict (d.queue.getD {}) now = Except.error e) :
    loadQueue PersistedFile.corruptJson now =
      { result := some (emptyRetryQueue now), backupCreated := true } ∧
    loadQueue (PersistedFile.parsed d) now =
      { result := none, backupCreated := false } := by
  refine ⟨rfl, ?_⟩
  simp only [loadQueue, h]

/-- C8 witness: the backup policy evaluated on the concrete malformed
save data whose queue entry is missing its `article_data` key. -/
theorem load_queue_backup_policy_witness :
    loadQueue PersistedFile.corruptJson 0 =
      { result := some (emptyRetryQueue 0), backupCreated := true } ∧
    loadQueue (PersistedFile.parsed malformedSaveData) 0 =
      { result := none, backupCreated := false } :=
  load_queue_backup_policy malformedSaveData 0
    (PyErr.keyError "article_data") rfl

/-- C8 counterexample: a persisted file that is valid JSON but whose
single queue entry lacks the `article_data` field makes `load_queue`
return `None` with no backup created, refuting the claim that every kind
of malformation is backed up and answered with a fresh empty queue. -/
theorem load_queue_malformed_fields_counterexample :
    loadQueue (PersistedFile.parsed malformedSaveData) 0 =
      { result := none, backupCreated := false } :=
  rfl

/-- C9 (amended): when a provider is selected for trend analysis and its
call fails, `analyze_daily_trends` returns the degraded summary built
purely from the items (category tallies, top items by descending
confidence, tag-frequency trends) instead of raising; but when no
provider is available at all, it returns the fixed empty summary, which
ignores the items. -/
theorem analyze_trends_degraded_fallback
    (statuses : List (AIProvider × ProviderStatus))
    (calls : AIProvider → Except String DailySummary)
    (articles : List NewsItem) (today : String) (now : Int)
    (p : AIProvider) (msg : String)
    (hsel : selectProviderAnalyze statuses now = Except.ok (some p))
    (hcall : calls p = Except.error msg) :
    analyzeDailyTrends statuses calls articles today now =
      Except.ok (createBasicSummary articles today now) ∧
    (createBasicSummary articles today now).total_articles =
      articles.length ∧
    (createBasicSummary articles today now).date = today := by
  refine ⟨?_, rfl, rfl⟩
  simp only [analyzeDailyTrends, hsel, hcall]

/-- C9 witness: with one healthy provider whose analysis call fails, the
degraded summary over the sample item is returned. -/
theorem analyze_trends_degraded_fallback_witness :
    analyzeDailyTrends [(AIProvider.claude, freshProviderStatus)]
        (fun _ => Except.error "boom") [sampleNewsItem] "2026-10-12" 0 =
      Except.ok (createBasicSummary [sampleNewsItem] "2026-10-12" 0) ∧
    (createBasicSummary [sampleNewsItem] "2026-10-12" 0).total_articles =
      ([sampleNewsItem] : List NewsItem).length ∧
    (createBasicSummary [sampleNewsItem] "2026-10-12" 0).date =
      "2026-10-12" :=
  analyze_trends_degraded_fallback [(AIProvider.claude, freshProviderStatus)]
    (fun _ => Except.error "boom") [sampleNewsItem] "2026-10-12" 0
    AIProvider.claude "boom" rfl rfl

/-- C9 counterexample: with items present but no provider available,
`analyze_daily_trends` returns the empty summary — zero articles and an
empty trend list — rather than a degraded summary built from the items,
refuting the claim for the no-provider case. -/
theorem analyze_trends_no_provider_counterexample :
    analyzeDailyTrends [(AIProvider.claude, unavailableStatus)]
        (fun _ => Except.error "unavailable") [sampleNewsItem]
        "2026-10-12" 0 =
      Except.ok (createEmptySummary "2026-10-12" 0) ∧
    (createEmptySummary "2026-10-12" 0).total_articles = 0 ∧
    (createEmptySummary "2026-10-12" 0).top_trends = ([] : List String) ∧
    ([sampleNewsItem] : List NewsItem).length = 1 :=
  ⟨rfl, rfl, rfl, rfl⟩

/-- C10: when the persisted retry-queue file does not exist, `load_queue`
returns a fresh empty `RetryQueue` — not `None` and not an error — so a
load on a clean state always succeeds. -/
theorem load_queue_missing_file_fresh (now : Int) :
    loadQueue PersistedFile.missing now =
      { result := some (emptyRetryQueue now), backupCreated := false } :=
  rfl

end NewsAggregator
